import Mathlib

/-!
Verification of the certmagic-s3 storage module (s3.go and its Redis-backend
variant): the lock registry (S3.Lock / S3.Unlock), the FASMS mutex-service
locker (FASMSLocker.Lock / lock / Unlock / unlock), the key namespacing
function (S3.KeyPrefix) and S3.Stat.

Network activity is modelled by oracles passed in as arguments: each HTTP
round trip's observable outcome is a value of an inductive type, and a
polling loop consumes a stream `Nat → outcome` of per-attempt outcomes.
The select race between the worker goroutine and ctx.Done() is modelled by a
value naming which side of the race was observed first.  Go maps are
modelled as association lists with replace-or-append insertion.
-/

namespace CertmagicS3

/-- The two values ctx.Err() can return in Go: context.Canceled and
context.DeadlineExceeded, sentinel errors distinct from every error any
backend constructs. -/
inductive CtxErr
| canceled
| deadlineExceeded
deriving DecidableEq, Repr

/-- Go error values that flow through the module, by provenance:
`ctx` is a context error, `transport` an error from http.Get / Client.Do
(or, in the Redis model, from the store), `readBody` from ioutil.ReadAll,
`decode` from json.Unmarshal, `msg` an errors.New with the given message,
and `notObtained` the redislock.ErrNotObtained sentinel. -/
inductive Err
| ctx (c : CtxErr)
| transport (m : String)
| readBody (m : String)
| decode (m : String)
| msg (m : String)
| notObtained
deriving DecidableEq, Repr

def Err.isCancellation : Err → Bool
| .ctx _ => true
| _ => false

def Err.isContention : Err → Bool
| .notObtained => true
| _ => false

def Err.isTransport : Err → Bool
| .transport _ => true
| _ => false

/-- The message an error renders to (Error() in Go). -/
def Err.text : Err → String
| .ctx .canceled => "context canceled"
| .ctx .deadlineExceeded => "context deadline exceeded"
| .transport m => m
| .readBody m => m
| .decode m => m
| .msg m => m
| .notObtained => "redislock: not obtained"

/-- `needle` occurs contiguously in `hay`. -/
def listContains (hay needle : List Char) : Bool :=
  (List.range (hay.length + 1)).any fun i => needle.isPrefixOf (hay.drop i)

/-- `needle` is a substring of `hay` (strings.Contains). -/
def strContains (hay needle : String) : Bool :=
  listContains hay.data needle.data

/-- Lookup in a Go map modelled as an association list. -/
def regLookup {α : Type} : List (String × α) → String → Option α
| [], _ => none
| (k, v) :: rest, key => if k = key then some v else regLookup rest key

/-- Go map assignment m[key] = v: replace the entry if present, else add it. -/
def regInsert {α : Type} (key : String) (v : α) : List (String × α) → List (String × α)
| [] => [(key, v)]
| (k, w) :: rest => if k = key then (key, v) :: rest else (k, w) :: regInsert key v rest

/-- Go delete(m, key). -/
def regErase {α : Type} (key : String) (locks : List (String × α)) : List (String × α) :=
  locks.filter fun p => p.1 ≠ key

/-- strings.HasPrefix(s, pre). -/
def goHasPrefix (s pre : String) : Bool := pre.data.isPrefixOf s.data

/-- strings.HasSuffix(s, suf). -/
def goHasSuffix (s suf : String) : Bool := suf.data.isSuffixOf s.data

/-- S3.KeyPrefix (s3.go:350-356): return the key unchanged when it already
starts with the configured prefix, else join prefix and key with "/"
(strings.Join([]string{s3.Prefix, prefix}, "/")). -/
def S3.KeyPrefix (cfgPrefix key : String) : String :=
  if goHasPrefix key cfgPrefix then key else cfgPrefix ++ ("/" ++ key)

/-- JSON body of the FASMS obtain-mutex response. -/
structure FASMSObtainMutexResponse where
  obtained : Bool
  uuid : String
deriving DecidableEq, Repr

/-- JSON body of the FASMS release-mutex response. -/
structure FASMSReleaseMutexResponse where
  released : Bool
deriving DecidableEq, Repr

/-- Lock handle of the FASMS backend (resource name and ownership token). -/
structure FASMSLocker where
  resourceName : String
  uuid : String
deriving DecidableEq, Repr

/-- What reading and decoding the body of a 200 obtain response yields. -/
inductive ObtainBody
| readErr (m : String)
| decodeErr (m : String)
| json (obtained : Bool) (uuid : String)
deriving DecidableEq, Repr

/-- Observable outcome of one http.Get to the obtain-mutex endpoint. -/
inductive ObtainHTTP
| getErr (m : String)
| resp (status : Nat) (body : ObtainBody)
deriving DecidableEq, Repr

/-- The status-code error message built at s3.go:102. -/
def obtainStatusMsg (status : Nat) (endpoint : String) : String :=
  "FASMSLocker.Lock: got status code " ++
    (toString status ++ (", but expected 200 on endpoint " ++ endpoint))

/-- FASMSLocker.lock (s3.go:88-108): one obtain round trip.  A 200 response
is read and decoded; any other status is an error naming the status code and
the endpoint; transport, read and decode failures propagate. -/
def FASMSLocker.lock (endpoint : String) (o : ObtainHTTP) :
    Except Err FASMSObtainMutexResponse :=
  match o with
  | .getErr m => .error (.transport m)
  | .resp status body =>
    if status = 200 then
      match body with
      | .readErr m => .error (.readBody m)
      | .decodeErr m => .error (.decode m)
      | .json ob u => .ok ⟨ob, u⟩
    else
      .error (.msg (obtainStatusMsg status endpoint))

/-- The fixed retry interval of the polling goroutine
(time.Sleep(500 * time.Millisecond), s3.go:74), in milliseconds. -/
def fasmsRetrySleepMs : Nat := 500

/-- Terminal result of the polling goroutine in FASMSLocker.Lock. -/
inductive LoopResult
| locked (uuid : String)
| failed (e : Err)
deriving DecidableEq, Repr

/-- The polling goroutine of FASMSLocker.Lock (s3.go:61-76): attempt `n`
observes `responses n`; on error send it, on obtained send success with the
uuid recorded, otherwise sleep 500ms and retry.  `fuel` bounds how many
attempts we observe; `none` means the loop is still polling. -/
def lockLoop (endpoint : String) (responses : Nat → ObtainHTTP) :
    Nat → Nat → Option LoopResult
| _, 0 => none
| n, fuel + 1 =>
  match FASMSLocker.lock endpoint (responses n) with
  | .error e => some (.failed e)
  | .ok r =>
    if r.obtained then some (.locked r.uuid)
    else lockLoop endpoint responses (n + 1) fuel

/-- Which side of the select race in FASMSLocker.Lock (s3.go:77-85) is
observed first: the polling goroutine's channel send, or ctx.Done(). -/
inductive RaceWinner
| loopFirst (r : LoopResult)
| ctxFirst (c : CtxErr)
deriving DecidableEq, Repr

/-- FASMSLocker.Lock (s3.go:59-86): (uuid field after the call, returned
error).  If the goroutine wins with success the uuid is recorded and nil is
returned; if it wins with an error that error is returned; if ctx.Done()
wins, ctx.Err() is returned. -/
def FASMSLocker.Lock : RaceWinner → String × Option Err
| .loopFirst (.locked u) => (u, none)
| .loopFirst (.failed e) => ("", some e)
| .ctxFirst c => ("", some (.ctx c))

/-- What reading and decoding the body of a 200 release response yields. -/
inductive ReleaseBody
| readErr (m : String)
| decodeErr (m : String)
| json (released : Bool)
deriving DecidableEq, Repr

/-- Observable outcome of one DELETE to the release-mutex endpoint. -/
inductive ReleaseHTTP
| reqErr (m : String)
| doErr (m : String)
| resp (status : Nat) (body : ReleaseBody)
deriving DecidableEq, Repr

/-- The status-code error message built at s3.go:153. -/
def releaseStatusMsg (status : Nat) (endpoint : String) : String :=
  "FASMSLocker.Unlock: got status code " ++
    (toString status ++ (", but expected 200 on endpoint " ++ endpoint))

/-- The released-false error message built at s3.go:122. -/
def notReleasedMsg (resourceName uuid : String) : String :=
  "FASMSLocker.Unlock: could not unlock resource '" ++
    (resourceName ++ ("' with uuid '" ++ (uuid ++ "'")))

/-- FASMSLocker.unlock (s3.go:137-162): one release round trip.  A 200
response is read and decoded; any other status is an error naming the status
code and the endpoint. -/
def FASMSLocker.unlock (endpoint : String) (o : ReleaseHTTP) :
    Except Err FASMSReleaseMutexResponse :=
  match o with
  | .reqErr m => .msg m |> .error
  | .doErr m => .error (.transport m)
  | .resp status body =>
    if status = 200 then
      match body with
      | .readErr m => .error (.readBody m)
      | .decodeErr m => .error (.decode m)
      | .json r => .ok ⟨r⟩
    else
      .error (.msg (releaseStatusMsg status endpoint))

/-- The release goroutine of FASMSLocker.Unlock (s3.go:112-125): propagate
the round trip's error; on released report nil; on not released report the
error naming the resource and uuid. -/
def FASMSLocker.unlockStep (locker : FASMSLocker) (endpoint : String)
    (o : ReleaseHTTP) : Option Err :=
  match FASMSLocker.unlock endpoint o with
  | .error e => some e
  | .ok resp =>
    if resp.released then none
    else some (.msg (notReleasedMsg locker.resourceName locker.uuid))

/-- Which side of the select race in FASMSLocker.Unlock (s3.go:126-134) is
observed first. -/
inductive ReleaseRaceWinner
| stepFirst (r : Option Err)
| ctxFirst (c : CtxErr)
deriving DecidableEq, Repr

/-- FASMSLocker.Unlock (s3.go:110-135): the release goroutine's outcome or,
if ctx.Done() wins the race, ctx.Err(). -/
def FASMSLocker.Unlock : ReleaseRaceWinner → Option Err
| .stepFirst r => r
| .ctxFirst c => some (.ctx c)

/-- Lock handle of the Redis lease backend (the redislock.Lock value). -/
structure RedisLock where
  token : String
deriving DecidableEq, Repr

/-- What the shared key-value store reports for one claim attempt. -/
inductive StoreReply
| free
| heldLive
| storeErr (m : String)
deriving DecidableEq, Repr

/-- Modelled from the spec: the lease backend's acquisition
(redislock.Obtain called with nil options at part_000:98, whose
implementation is not under src/).  Acquisition performs a single atomic
claim-if-free-or-expired operation against the store — it consults only the
first reply of the attempt stream and never retries internally.  A free key
yields a handle holding a fresh token; a key held by a live lease yields the
distinguished ErrNotObtained immediately; a store error propagates.
Mirrors Go's pair return (nil handle alongside a non-nil error). -/
def redislockObtain (store : Nat → StoreReply) (freshToken : String) :
    Option RedisLock × Option Err :=
  match store 0 with
  | .free => (some ⟨freshToken⟩, none)
  | .heldLive => (none, some .notObtained)
  | .storeErr m => (none, some (.transport m))

/-- S3.Lock, FASMS variant (s3.go:231-244): build a locker for the key, run
FASMSLocker.Lock, then store the locker in the registry — the assignment
s3.FASMSLocks[key] = lock happens before err is inspected — and return the
error. -/
def S3.LockFASMS (locks : List (String × FASMSLocker)) (key : String)
    (w : RaceWinner) : List (String × FASMSLocker) × Option Err :=
  let r := FASMSLocker.Lock w
  (regInsert key ⟨key, r.1⟩ locks, r.2)

/-- S3.Lock, Redis variant (part_000:95-109): obtain, then store the
returned handle in the registry — the assignment s3.RedisLocks[key] = lock
happens before err is inspected, so on failure the nil handle is stored —
and return the error. -/
def S3.LockRedis (locks : List (String × Option RedisLock)) (key : String)
    (store : Nat → StoreReply) (freshToken : String) :
    List (String × Option RedisLock) × Option Err :=
  let r := redislockObtain store freshToken
  (regInsert key r.1 locks, r.2)

/-- Result of S3.Unlock: the registry afterwards, the returned error, and
the handle Release was invoked on (none when no release happened). -/
structure UnlockOutcome (α : Type) where
  registry : List (String × α)
  err : Option Err
  released : Option α

/-- S3.Unlock (s3.go:246-260 and part_000:111-125): if the key is absent
from the registry, return nil having touched nothing; if present, invoke
Release on the stored handle (outcome given by the `release` oracle), delete
the entry regardless, and return Release's error. -/
def S3.Unlock {α : Type} (locks : List (String × α)) (key : String)
    (release : α → Option Err) : UnlockOutcome α :=
  match regLookup locks key with
  | none => ⟨locks, none, none⟩
  | some lock => ⟨regErase key locks, release lock, some lock⟩

/-- Object metadata as minio's StatObject reports it. -/
structure ObjectInfo where
  key : String
  lastModified : Nat
  size : Int
deriving DecidableEq, Repr

/-- Observable outcome of one StatObject call. -/
inductive StatOutcome
| statErr (m : String)
| found (info : ObjectInfo)
deriving DecidableEq, Repr

/-- certmagic.KeyInfo. -/
structure KeyInfo where
  key : String
  modified : Nat
  size : Int
  isTerminal : Bool
deriving DecidableEq, Repr

/-- S3.Stat (s3.go:331-348 and part_000:196-213): stat the prefixed key; on
any stat error return the zero KeyInfo and nil; on success return the
object's metadata and err (nil on that branch). -/
def S3.Stat (cfgPrefix key : String) (store : String → StatOutcome) :
    KeyInfo × Option Err :=
  match store (S3.KeyPrefix cfgPrefix key) with
  | .statErr _ => (⟨"", 0, 0, false⟩, none)
  | .found info =>
    (⟨info.key, info.lastModified, info.size, goHasSuffix info.key "/"⟩, none)

/-! ### Helper lemmas -/

theorem isPrefixOf_append (b t : List Char) : b.isPrefixOf (b ++ t) = true := by
  induction b with
  | nil => simp [List.isPrefixOf]
  | cons c bs ih => simp [List.isPrefixOf, ih]

theorem listContains_mid (a b c : List Char) : listContains (a ++ (b ++ c)) b = true := by
  unfold listContains
  rw [List.any_eq_true]
  refine ⟨a.length, ?_, ?_⟩
  · rw [List.mem_range, List.length_append]
    omega
  · rw [List.drop_left]
    exact isPrefixOf_append b c

theorem strContains_append_mid (x y z : String) : strContains (x ++ (y ++ z)) y = true := by
  unfold strContains
  rw [String.data_append, String.data_append]
  exact listContains_mid x.data y.data z.data

theorem strContains_append_right (x y : String) : strContains (x ++ y) y = true := by
  have h := strContains_append_mid x y ""
  rwa [String.append_empty] at h

theorem regLookup_regErase {α : Type} (key : String) (locks : List (String × α)) :
    regLookup (regErase key locks) key = none := by
  induction locks with
  | nil => rfl
  | cons p rest ih =>
    obtain ⟨a, b⟩ := p
    by_cases h : a = key
    · simpa [regErase, List.filter_cons, h] using ih
    · simpa [regErase, List.filter_cons, h, regLookup] using ih

theorem lock_error_not_contention (endpoint : String) (o : ObtainHTTP) (e : Err)
    (h : FASMSLocker.lock endpoint o = .error e) : e.isContention = false := by
  cases o with
  | getErr m =>
    simp [FASMSLocker.lock] at h
    subst h; rfl
  | resp status body =>
    by_cases hs : status = 200
    · cases body with
      | readErr m =>
        simp [FASMSLocker.lock, hs] at h
        subst h; rfl
      | decodeErr m =>
        simp [FASMSLocker.lock, hs] at h
        subst h; rfl
      | json ob u =>
        simp [FASMSLocker.lock, hs] at h
    · simp [FASMSLocker.lock, hs] at h
      subst h; rfl

theorem goHasPrefix_append (p x : String) : goHasPrefix (p ++ x) p = true := by
  unfold goHasPrefix
  rw [String.data_append]
  exact isPrefixOf_append p.data x.data

/-! ### The claims -/

/-- Claim C1 (code bug): the spec requires that when the backend's
acquisition fails, Lock returns the error and inserts no entry into the
Lock Registry; the code stores the handle in the registry before inspecting
the error, so a failed Lock still inserts an entry — in the Redis variant
even the nil handle returned alongside ErrNotObtained, which a later Unlock
would dereference.  Evaluated at failing inputs for both variants: the
error is propagated and the registry nonetheless gains an entry. -/
theorem c1_lock_inserts_entry_on_failure :
    S3.LockRedis [] "example.com" (fun _ => .heldLive) "tok"
      = ([("example.com", (none : Option RedisLock))], some .notObtained)
  ∧ S3.LockFASMS [] "example.com" (.loopFirst (.failed (.transport "connection refused")))
      = ([("example.com", ⟨"example.com", ""⟩)], some (.transport "connection refused")) :=
  ⟨rfl, rfl⟩

/-- Claim C2: Unlock of a resource absent from the Lock Registry is a no-op
that reports success — the registry is returned unchanged, nil is returned,
and Release is never invoked on any handle. -/
theorem c2_unlock_absent_is_noop {α : Type} (locks : List (String × α))
    (key : String) (release : α → Option Err) (h : regLookup locks key = none) :
    S3.Unlock locks key release = ⟨locks, none, none⟩ := by
  unfold S3.Unlock
  rw [h]

theorem c2_witness :
    regLookup ([] : List (String × FASMSLocker)) "never-locked" = none
  ∧ S3.Unlock ([] : List (String × FASMSLocker)) "never-locked"
      (fun _ => some .notObtained) = ⟨[], none, none⟩ :=
  ⟨rfl, c2_unlock_absent_is_noop [] "never-locked" (fun _ => some .notObtained) rfl⟩

/-- Claim C3: Unlock of a resource present in the Lock Registry invokes
Release on the stored handle, removes the entry whether or not Release
succeeded (the registry afterwards has no entry for the key), and returns
Release's error. -/
theorem c3_unlock_present_releases_and_removes {α : Type}
    (locks : List (String × α)) (key : String) (release : α → Option Err)
    (L : α) (h : regLookup locks key = some L) :
    S3.Unlock locks key release = ⟨regErase key locks, release L, some L⟩
  ∧ regLookup (S3.Unlock locks key release).registry key = none := by
  constructor
  · unfold S3.Unlock
    rw [h]
  · unfold S3.Unlock
    rw [h]
    exact regLookup_regErase key locks

theorem c3_witness :
    regLookup [("k", FASMSLocker.mk "k" "u1")] "k" = some ⟨"k", "u1"⟩
  ∧ (S3.Unlock [("k", FASMSLocker.mk "k" "u1")] "k" (fun _ => some (.msg "boom"))
      = ⟨[], some (.msg "boom"), some ⟨"k", "u1"⟩⟩
    ∧ regLookup (S3.Unlock [("k", FASMSLocker.mk "k" "u1")] "k"
        (fun _ => some (.msg "boom"))).registry "k" = none) :=
  ⟨rfl, c3_unlock_present_releases_and_removes
    [("k", FASMSLocker.mk "k" "u1")] "k" (fun _ => some (.msg "boom")) ⟨"k", "u1"⟩ rfl⟩

/-- Claim C4: when ctx.Done() wins the select race before the backend
activity reports a result, FASMSLocker.Lock and FASMSLocker.Unlock return
ctx.Err() — a cancellation error, distinct by construction from a
contention error and from a transport error. -/
theorem c4_cancellation_distinct :
    (∀ c : CtxErr, FASMSLocker.Lock (.ctxFirst c) = ("", some (.ctx c))
      ∧ (Err.ctx c).isCancellation = true
      ∧ (Err.ctx c).isContention = false
      ∧ (Err.ctx c).isTransport = false)
  ∧ (∀ c : CtxErr, FASMSLocker.Unlock (.ctxFirst c) = some (.ctx c)) :=
  ⟨fun _ => ⟨rfl, rfl, rfl, rfl⟩, fun _ => rfl⟩

/-- Claim C5: the lease backend's acquisition performs exactly one claim
attempt — its outcome depends only on the first reply of the attempt
stream, so it never retries internally — and a key held by a live lease
yields the distinguished NotObtained condition immediately. -/
theorem c5_lease_single_attempt :
    (∀ (s s' : Nat → StoreReply) (t : String), s 0 = s' 0 →
      redislockObtain s t = redislockObtain s' t)
  ∧ (∀ (s : Nat → StoreReply) (t : String), s 0 = .heldLive →
      redislockObtain s t = (none, some .notObtained)) := by
  constructor
  · intro s s' t h
    unfold redislockObtain
    rw [h]
  · intro s t h
    unfold redislockObtain
    rw [h]

theorem c5_witness :
    ((fun _ => StoreReply.heldLive) 0 = (fun _ => StoreReply.heldLive) 0
      ∧ redislockObtain (fun _ => .heldLive) "t1" = redislockObtain (fun _ => .heldLive) "t1")
  ∧ ((fun _ => StoreReply.heldLive) 0 = StoreReply.heldLive
      ∧ redislockObtain (fun _ => .heldLive) "t1" = (none, some .notObtained)) :=
  ⟨⟨rfl, c5_lease_single_attempt.1 (fun _ => .heldLive) (fun _ => .heldLive) "t1" rfl⟩,
   ⟨rfl, c5_lease_single_attempt.2 (fun _ => .heldLive) "t1" rfl⟩⟩

/-- Claim C6: the mutex-service polling loop sleeps a fixed 500ms (hundreds
of milliseconds) between attempts, and whenever it reports a result, that
result is either success recording the uuid some service response returned
with obtained=true, or a transport/protocol/decode error some attempt
produced — never a contention result.  (Cancellation ends the surrounding
select race, not the loop: see c4_cancellation_distinct.) -/
theorem c6_polling_loop :
    (100 ≤ fasmsRetrySleepMs ∧ fasmsRetrySleepMs < 1000)
  ∧ (∀ (ep : String) (responses : Nat → ObtainHTTP) (n fuel : Nat) (r : LoopResult),
      lockLoop ep responses n fuel = some r →
        (∃ u m, r = .locked u
          ∧ FASMSLocker.lock ep (responses m) = .ok ⟨true, u⟩)
      ∨ (∃ e m, r = .failed e
          ∧ FASMSLocker.lock ep (responses m) = .error e
          ∧ e.isContention = false)) := by
  refine ⟨⟨by decide, by decide⟩, ?_⟩
  intro ep responses n fuel
  induction fuel generalizing n with
  | zero => intro r h; simp [lockLoop] at h
  | succ fuel ih =>
    intro r h
    rw [lockLoop] at h
    cases hl : FASMSLocker.lock ep (responses n) with
    | error e =>
      rw [hl] at h
      simp at h
      right
      exact ⟨e, n, by simp [← h], hl, lock_error_not_contention ep (responses n) e hl⟩
    | ok resp =>
      rw [hl] at h
      simp at h
      by_cases ho : resp.obtained
      · rw [if_pos ho] at h
        simp at h
        left
        refine ⟨resp.uuid, n, by simp [← h], ?_⟩
        rw [hl]
        congr 1
        cases resp
        simp_all
      · rw [if_neg ho] at h
        exact ih (n + 1) r h

theorem c6_witness :
    lockLoop "https://fasms.example"
        (fun n => if n = 0 then .resp 200 (.json false "x") else .resp 200 (.json true "u7"))
        0 3 = some (.locked "u7")
  ∧ ((∃ u m, LoopResult.locked "u7" = .locked u
        ∧ FASMSLocker.lock "https://fasms.example"
            ((fun n => if n = 0 then ObtainHTTP.resp 200 (.json false "x")
              else .resp 200 (.json true "u7")) m) = .ok ⟨true, u⟩)
    ∨ (∃ e m, LoopResult.locked "u7" = .failed e
        ∧ FASMSLocker.lock "https://fasms.example"
            ((fun n => if n = 0 then ObtainHTTP.resp 200 (.json false "x")
              else .resp 200 (.json true "u7")) m) = .error e
        ∧ e.isContention = false)) :=
  ⟨rfl, c6_polling_loop.2 "https://fasms.example"
    (fun n => if n = 0 then .resp 200 (.json false "x") else .resp 200 (.json true "u7"))
    0 3 (.locked "u7") rfl⟩

/-- Claim C7 is refuted at a concrete input: a release request answered
with status 500 for resource "res0" held with token "uuid0" yields an error
(the status-code message naming the endpoint) whose text contains neither
the resource name nor the token. -/
theorem c7_counterexample :
    Option.map (fun e => strContains (Err.text e) "res0" && strContains (Err.text e) "uuid0")
      (FASMSLocker.unlockStep ⟨"res0", "uuid0"⟩ "https://mutex.example"
        (.resp 500 (.json true)))
      = some false := by
  decide

/-- Claim C7 as amended: a non-200 (hence any non-2xx) release status
yields an error whose message contains the status code and the endpoint —
not the resource name or token — while a 200 response whose body reports
released=false yields an error whose message contains the resource name and
the ownership token. -/
theorem c7_release_error_contents (locker : FASMSLocker) (endpoint : String)
    (status : Nat) (body : ReleaseBody) (h : status ≠ 200) :
    (FASMSLocker.unlockStep locker endpoint (.resp status body)
        = some (.msg (releaseStatusMsg status endpoint))
      ∧ strContains (releaseStatusMsg status endpoint) (toString status) = true
      ∧ strContains (releaseStatusMsg status endpoint) endpoint = true)
  ∧ (FASMSLocker.unlockStep locker endpoint (.resp 200 (.json false))
        = some (.msg (notReleasedMsg locker.resourceName locker.uuid))
      ∧ strContains (notReleasedMsg locker.resourceName locker.uuid) locker.resourceName = true
      ∧ strContains (notReleasedMsg locker.resourceName locker.uuid) locker.uuid = true) := by
  refine ⟨⟨?_, ?_, ?_⟩, ?_, ?_, ?_⟩
  · simp [FASMSLocker.unlockStep, FASMSLocker.unlock, h]
  · unfold releaseStatusMsg
    exact strContains_append_mid _ _ _
  · unfold releaseStatusMsg
    rw [← String.append_assoc, ← String.append_assoc]
    exact strContains_append_right _ _
  · rfl
  · unfold notReleasedMsg
    exact strContains_append_mid _ _ _
  · unfold notReleasedMsg
    have hmid := strContains_append_mid
      ("FASMSLocker.Unlock: could not unlock resource '" ++
        (locker.resourceName ++ "' with uuid '")) locker.uuid "'"
    simpa [String.append_assoc] using hmid

theorem c7_witness :
    (500 ≠ 200)
  ∧ ((FASMSLocker.unlockStep ⟨"res0", "uuid0"⟩ "https://mutex.example"
        (.resp 500 (.json true))
        = some (.msg (releaseStatusMsg 500 "https://mutex.example"))
      ∧ strContains (releaseStatusMsg 500 "https://mutex.example") (toString 500) = true
      ∧ strContains (releaseStatusMsg 500 "https://mutex.example") "https://mutex.example" = true)
    ∧ (FASMSLocker.unlockStep ⟨"res0", "uuid0"⟩ "https://mutex.example"
        (.resp 200 (.json false))
        = some (.msg (notReleasedMsg "res0" "uuid0"))
      ∧ strContains (notReleasedMsg "res0" "uuid0") "res0" = true
      ∧ strContains (notReleasedMsg "res0" "uuid0") "uuid0" = true)) :=
  ⟨by decide, c7_release_error_contents ⟨"res0", "uuid0"⟩ "https://mutex.example"
    500 (.json true) (by decide)⟩

/-- Claim C8: the key namespacing function returns the key unchanged when
it already starts with the prefix, otherwise joins prefix and key with "/";
it is idempotent, and the spec's two examples hold. -/
theorem c8_keyprefix_idempotent :
    (∀ p k : String, goHasPrefix k p = true → S3.KeyPrefix p k = k)
  ∧ (∀ p k : String, goHasPrefix k p = false → S3.KeyPrefix p k = p ++ ("/" ++ k))
  ∧ (∀ p k : String, S3.KeyPrefix p (S3.KeyPrefix p k) = S3.KeyPrefix p k)
  ∧ S3.KeyPrefix "ssl" "ssl/cert.pem" = "ssl/cert.pem"
  ∧ S3.KeyPrefix "ssl" "cert.pem" = "ssl/cert.pem" := by
  refine ⟨?_, ?_, ?_, by decide, by decide⟩
  · intro p k h
    simp [S3.KeyPrefix, h]
  · intro p k h
    simp [S3.KeyPrefix, h]
  · intro p k
    by_cases h : goHasPrefix k p
    · simp [S3.KeyPrefix, h]
    · simp [S3.KeyPrefix, h, goHasPrefix_append]

theorem c8_witness :
    (goHasPrefix "ssl/cert.pem" "ssl" = true
      ∧ S3.KeyPrefix "ssl" "ssl/cert.pem" = "ssl/cert.pem")
  ∧ (goHasPrefix "cert.pem" "ssl" = false
      ∧ S3.KeyPrefix "ssl" "cert.pem" = "ssl" ++ ("/" ++ "cert.pem")) :=
  ⟨⟨by decide, c8_keyprefix_idempotent.1 "ssl" "ssl/cert.pem" (by decide)⟩,
   ⟨by decide, c8_keyprefix_idempotent.2.1 "ssl" "cert.pem" (by decide)⟩⟩

/-- Claim C9: whenever StatObject fails — with a missing-key error or a
transport error — Stat returns the zero KeyInfo together with a nil error,
and two failures with different reasons are indistinguishable to the
caller. -/
theorem c9_stat_error_swallowed
    (cfgPrefix key : String) (store store' : String → StatOutcome) (m m' : String)
    (h : store (S3.KeyPrefix cfgPrefix key) = .statErr m)
    (h' : store' (S3.KeyPrefix cfgPrefix key) = .statErr m') :
    S3.Stat cfgPrefix key store = (⟨"", 0, 0, false⟩, none)
  ∧ S3.Stat cfgPrefix key store = S3.Stat cfgPrefix key store' := by
  unfold S3.Stat
  rw [h, h']
  exact ⟨rfl, rfl⟩

theorem c9_witness :
    ((fun _ => StatOutcome.statErr "key does not exist") (S3.KeyPrefix "ssl" "cert.pem")
        = .statErr "key does not exist"
      ∧ (fun _ => StatOutcome.statErr "connection reset") (S3.KeyPrefix "ssl" "cert.pem")
        = .statErr "connection reset")
  ∧ (S3.Stat "ssl" "cert.pem" (fun _ => .statErr "key does not exist")
        = (⟨"", 0, 0, false⟩, none)
    ∧ S3.Stat "ssl" "cert.pem" (fun _ => .statErr "key does not exist")
        = S3.Stat "ssl" "cert.pem" (fun _ => .statErr "connection reset")) :=
  ⟨⟨rfl, rfl⟩, c9_stat_error_swallowed "ssl" "cert.pem"
    (fun _ => .statErr "key does not exist") (fun _ => .statErr "connection reset")
    "key does not exist" "connection reset" rfl rfl⟩

/-- Claim C10: the namespacing check is a raw string-prefix test, not a
path-segment test — any key that begins, character for character, with the
configured prefix is returned unchanged, even without a separator after the
prefix, so a key such as "sslX/cert.pem" under prefix "ssl" escapes the
configured namespace. -/
theorem c10_raw_string_prefix_test :
    (∀ p x : String, S3.KeyPrefix p (p ++ x) = p ++ x)
  ∧ S3.KeyPrefix "ssl" "sslX/cert.pem" = "sslX/cert.pem" := by
  refine ⟨?_, by decide⟩
  intro p x
  simp [S3.KeyPrefix, goHasPrefix_append]

end CertmagicS3
